import Mathlib

/-!
Shallow embedding of `metronotescli/setup.py` — configuration resolution,
config-file rendering, and safe archive extraction — together with proofs
of the specification claims about it.

The Python code runs on a POSIX filesystem; the `os.path` primitives it
calls (`join`, `abspath`, `dirname`, `commonprefix`) are embedded here
from their reference (posixpath) semantics, implemented over `List Char`
so that every definition reduces in the kernel.  Stateful operations are
modelled by explicit filesystem states or effect traces.
-/

namespace Metronotes

/-! ### String primitives (kernel-reducible replacements for str methods) -/

/-- Longest common character sequence at the start of two character lists;
this is what `os.path.commonprefix` computes on a two-element list
(character-wise, not path-component-wise). -/
def lcpChars : List Char → List Char → List Char
  | x :: xs, y :: ys => if x = y then x :: lcpChars xs ys else []
  | _, _ => []

/-- `os.path.commonprefix([a, b])`: the longest common string prefix of the
two strings, character-wise. -/
def commonprefixStr (a b : String) : String :=
  String.mk (lcpChars a.data b.data)

/-- `pre.isPrefixOf s` at the string level (used for `str.startswith`). -/
def strStartsWith (s pre : String) : Bool :=
  pre.data.isPrefixOf s.data

/-- `str.endswith` via list suffix test. -/
def strEndsWith (s suf : String) : Bool :=
  suf.data.isSuffixOf s.data

/-- Join a list of strings with a separator: Python `sep.join(parts)`. -/
def sjoin (sep : String) : List String → String
  | [] => ""
  | [s] => s
  | s1 :: s2 :: rest => s1 ++ sep ++ sjoin sep (s2 :: rest)

/-- Split a character list at every `'/'`, Python `str.split('/')` semantics:
the empty string yields one empty component, adjacent slashes yield empty
components. -/
def splitOnSlash : List Char → List (List Char)
  | [] => [[]]
  | c :: rest =>
    let r := splitOnSlash rest
    if c = '/' then [] :: r else (c :: r.headD []) :: r.tail

/-- Break a character list at the first occurrence of `ch`:
`some (before, after)` when present (Python `str.split(ch, 1)`), else `none`. -/
def breakAtChar (ch : Char) : List Char → Option (List Char × List Char)
  | [] => none
  | c :: rest =>
    if c = ch then some ([], rest)
    else
      match breakAtChar ch rest with
      | some (a, b) => some (c :: a, b)
      | none => none

/-- ASCII whitespace recognised by Python `str.strip()` (space, tab, newline,
carriage return, vertical tab, form feed). -/
def isSpaceChar (c : Char) : Bool :=
  c == ' ' || c == '\t' || c == '\n' || c == '\r' || c == '\x0b' || c == '\x0c'

/-- Python `str.strip()`: drop leading and trailing whitespace. -/
def stripChars (cs : List Char) : List Char :=
  ((cs.dropWhile isSpaceChar).reverse.dropWhile isSpaceChar).reverse

/-- Python `str.strip()` on strings. -/
def strip (s : String) : String :=
  String.mk (stripChars s.data)

/-- Python `str.replace('--', '')`: remove every non-overlapping occurrence
of a double dash, scanning left to right. -/
def removeDashDash : List Char → List Char
  | [] => []
  | [c] => [c]
  | c1 :: c2 :: rest =>
    if c1 = '-' ∧ c2 = '-' then removeDashDash rest
    else c1 :: removeDashDash (c2 :: rest)

/-- Python `str.lower()` (ASCII case mapping, as used on the y/N answer). -/
def lowerStr (s : String) : String :=
  String.mk (s.data.map Char.toLower)

/-! ### posixpath primitives used by the source -/

/-- `os.path.isabs` on POSIX: the path starts with a slash. -/
def posixIsAbs (p : String) : Bool :=
  strStartsWith p "/"

/-- `os.path.join(a, b)` on POSIX for two arguments: an absolute second
argument replaces the first; otherwise a separator is inserted unless the
first part is empty or already ends with one. -/
def pjoin (a b : String) : String :=
  if posixIsAbs b then b
  else if a = "" ∨ strEndsWith a "/" then a ++ b
  else a ++ "/" ++ b

/-- `os.path.normpath` on POSIX: collapse `.` and `..` components and
repeated separators, preserving the special two-leading-slash case. -/
def posixNormpath (path : String) : String :=
  if path = "" then "."
  else
    let initialSlashes : Nat :=
      if strStartsWith path "//" ∧ ¬ strStartsWith path "///" then 2
      else if strStartsWith path "/" then 1 else 0
    let comps := splitOnSlash path.data
    let newComps := comps.foldl (fun acc comp =>
      if comp = [] ∨ comp = ['.'] then acc
      else if comp ≠ ['.', '.'] ∨ (initialSlashes = 0 ∧ acc = []) ∨
              (acc ≠ [] ∧ acc.getLast? = some ['.', '.']) then acc ++ [comp]
      else acc.dropLast) ([] : List (List Char))
    let joined := sjoin "/" (newComps.map String.mk)
    let res := String.mk (List.replicate initialSlashes '/') ++ joined
    if res = "" then "." else res

/-- `os.path.abspath(p)` relative to a current working directory `cwd`:
make the path absolute by joining onto `cwd` when needed, then normalise. -/
def abspath (cwd p : String) : String :=
  if posixIsAbs p then posixNormpath p else posixNormpath (pjoin cwd p)

/-- `os.path.dirname(p)` on POSIX: everything up to the final slash, with
trailing slashes stripped unless the head consists only of slashes. -/
def dirname (p : String) : String :=
  let head := String.mk ((p.data.reverse.dropWhile (fun c => c != '/')).reverse)
  if head ≠ "" ∧ head.data.any (fun c => c != '/') then
    String.mk ((head.data.reverse.dropWhile (fun c => c == '/')).reverse)
  else head

example : posixNormpath "/a/../ab/x" = "/ab/x" := by decide
example : abspath "/" "/a" = "/a" := by decide
example : pjoin "/a" "../ab/x" = "/a/../ab/x" := by decide
example : dirname "/etc/app/server.conf" = "/etc/app" := by decide
example : commonprefixStr "/a" "/ab/x" = "/a" := by decide
example : abspath "/home/user" "/home/user/data/../../etc/passwd" = "/home/etc/passwd" := by decide

/-! ### Configuration mappings (Python dicts of strings) -/

/-- A Python dict from string keys to string values, observed through its
lookup function (`k in d` is `d k ≠ none`, `d[k]` is the value). -/
abbrev Dict := String → Option String

/-- The empty dict `{}`. -/
def Dict.empty : Dict := fun _ => none

/-- `d[k] = v`: the dict with binding `k ↦ v` added (replacing any old one). -/
def Dict.insert (d : Dict) (k v : String) : Dict :=
  fun q => if q = k then some v else d q

/-- `d1.update(d2)`: every key of `d2` takes the `d2` value, other keys keep
the `d1` value. -/
def Dict.update (d1 d2 : Dict) : Dict :=
  fun q =>
    match d2 q with
    | some v => some v
    | none => d1 q

/-- A `for src_key in table: if src_key in src: out[table[src_key]] = src[src_key]`
loop, shared by `extract_bitcoincore_config` (lines 97-100) and
`server_to_client_config` (lines 132-135): keys are renamed through the
table, untranslated keys are dropped. -/
def translateKeys (src : Dict) (table : List (String × String)) (init : Dict) : Dict :=
  table.foldl (fun acc p =>
    match src p.1 with
    | some v => Dict.insert acc p.2 v
    | none => acc) init

/-! ### SourceProbe: `extract_bitcoincore_config` (setup.py lines 67-102) -/

/-- One iteration of the line loop at lines 84-88: skip the line when it
contains a `#` anywhere or contains no `=`; otherwise split at the first
`=` and store the stripped key and value. -/
def parseBtcLine (conf : Dict) (line : String) : Dict :=
  if line.data.contains '#' ∨ ¬ line.data.contains '=' then conf
  else
    match breakAtChar '=' line.data with
    | some (k, v) => Dict.insert conf (String.mk (stripChars k)) (String.mk (stripChars v))
    | none => conf

/-- The `config_keys` rename table at lines 90-95. -/
def btcConfigKeys : List (String × String) :=
  [("rpcport", "backend-port"),
   ("rpcuser", "backend-user"),
   ("rpcpassword", "backend-password"),
   ("rpcssl", "backend-ssl")]

/-- `extract_bitcoincore_config` (lines 67-102), parameterised by the
contents of `bitcoin.conf`: `none` models a missing file (the
`os.path.exists` guard at line 80 then leaves the result empty),
`some lines` models the list returned by `fd.readlines()`. -/
def extract_bitcoincore_config (btcConfFile : Option (List String)) : Dict :=
  match btcConfFile with
  | none => Dict.empty
  | some lines =>
    translateKeys (lines.foldl parseBtcLine Dict.empty) btcConfigKeys Dict.empty

/-! ### ConfigResolver: `get_server_known_config` (lines 104-113) and
`server_to_client_config` (lines 116-137) -/

/-- `get_server_known_config` (lines 104-113), parameterised by the two
probed mappings (the results of `extract_bitcoincore_config` and
`extract_old_config`, which read the environment): start from `{}`,
update with the bitcoin config, then update with the legacy config. -/
def get_server_known_config (bitcoincore_config old_config : Dict) : Dict :=
  (Dict.empty.update bitcoincore_config).update old_config

/-- The server-to-client `config_keys` translation table at lines 119-130. -/
def serverToClientKeys : List (String × String) :=
  [("backend-connect", "wallet-connect"),
   ("backend-port", "wallet-port"),
   ("backend-user", "wallet-user"),
   ("backend-password", "wallet-password"),
   ("backend-ssl", "wallet-ssl"),
   ("backend-ssl-verify", "wallet-ssl-verify"),
   ("rpc-host", "metronotes-rpc-connect"),
   ("rpc-port", "metronotes-rpc-port"),
   ("rpc-user", "metronotes-rpc-user"),
   ("rpc-password", "metronotes-rpc-password")]

/-- `server_to_client_config` (lines 116-137). -/
def server_to_client_config (server_config : Dict) : Dict :=
  translateKeys server_config serverToClientKeys Dict.empty

/-! ### ConfigRenderer: `generate_config_file` (lines 14-47) -/

/-- A configuration value as the renderer distinguishes them at lines 36-39:
a boolean renders as `1`/`0`, a float/Decimal renders with 8 fractional
digits, anything else is formatted with `str`.  Decimals are represented
exactly as an integer count of `10^-8` units, which is the precision
`format(value, '.8f')` emits. -/
inductive CVal where
  | vstr : String → CVal
  | vbool : Bool → CVal
  | vdec : Int → CVal
  | vint : Int → CVal
deriving DecidableEq

/-- Zero-pad a numeral string on the left to 8 digits. -/
def padLeft8 (s : String) : String :=
  String.mk (List.replicate (8 - s.length) '0') ++ s

/-- `format(value, '.8f')` for a value that is an exact multiple of
`10^-8`, represented by its scaled integer. -/
def formatFixed8 (units : Int) : String :=
  let sign := if units < 0 then "-" else ""
  let n := units.natAbs
  sign ++ toString (n / 100000000) ++ "." ++ padLeft8 (toString (n % 100000000))

/-- The value-to-string step at lines 36-39 (the `None` case is handled
separately by the caller). -/
def renderVal : CVal → String
  | .vstr s => s
  | .vbool b => if b then "1" else "0"
  | .vdec units => formatFixed8 units
  | .vint n => toString n

/-- Modelled from the spec: one schema entry of `CONFIG_ARGS` (§3
ArgumentSpec).  The schema lists live in `metronotescli/server.py` and
`metronotescli/client.py`, which are not under `src/`; the consuming code
reads `arg[0][-1]` (the last flag string), `arg[1]['help']` and the
optional `arg[1]['default']`. -/
structure ArgSpec where
  flags : List String
  help : String
  default : Option CVal
deriving DecidableEq

/-- `arg[0][-1].replace('--', '')` at line 27: the canonical key of a
schema entry. -/
def argKey (a : ArgSpec) : String :=
  String.mk (removeDashDash (a.flags.getLastD "").data)

/-- The value resolution at lines 28-32: the known config wins, otherwise
the declared default, otherwise nothing. -/
def resolvedValue (known : String → Option CVal) (a : ArgSpec) : Option CVal :=
  match known (argKey a) with
  | some v => some v
  | none => a.default

/-- The three lines appended for one schema entry at lines 33-43: the help
comment, then the `key = value` line — commented out with an empty value
when no value resolved — then a blank line. -/
def renderArg (known : String → Option CVal) (a : ArgSpec) : List String :=
  match resolvedValue known a with
  | none => ["# " ++ a.help, "# " ++ argKey a ++ " = ", ""]
  | some v => ["# " ++ a.help, argKey a ++ " = " ++ renderVal v, ""]

/-- All lines of the rendered file (lines 22-43): the `[Default]` header,
a blank line, then the three-line block of every schema entry in order. -/
def renderLines (config_args : List ArgSpec) (known : String → Option CVal) : List String :=
  ["[Default]", ""] ++ config_args.foldr (fun a acc => renderArg known a ++ acc) []

/-- The file content written at line 46: the lines joined with newlines. -/
def renderConfig (config_args : List ArgSpec) (known : String → Option CVal) : String :=
  sjoin "\n" (renderLines config_args known)

/-- The filesystem state the renderer manipulates: file contents, file
permission bits, directory existence and directory permission bits, each
keyed by path. -/
structure FS where
  files : String → Option String
  fperm : String → Option Nat
  dirs : String → Bool
  dperm : String → Option Nat

/-- `os.path.exists`: true when a file or a directory is present at the
path. -/
def FS.pathExists (fs : FS) (p : String) : Bool :=
  (fs.files p).isSome || fs.dirs p

/-- A filesystem with no files and no directories. -/
def FS.emptyFS : FS :=
  ⟨fun _ => none, fun _ => none, fun _ => false, fun _ => none⟩

/-- `generate_config_file` (lines 14-47) as a filesystem transformer.
If the target exists and `overwrite` is false, return unchanged (lines
15-16).  Otherwise ensure the parent directory of the absolute target
exists — `os.makedirs(config_dir, mode=0o755)` at lines 18-20; the model
records the named directory, eliding the identical creation of missing
ancestors — then write the rendered content and `os.chmod(filename, 0o660)`
(lines 45-47). -/
def generate_config_file (fs : FS) (cwd filename : String)
    (config_args : List ArgSpec) (known_config : String → Option CVal)
    (overwrite : Bool) : FS :=
  if ¬ overwrite ∧ fs.pathExists filename then fs
  else
    let config_dir := dirname (abspath cwd filename)
    let fs1 :=
      if fs.pathExists config_dir then fs
      else { fs with
              dirs := fun p => if p = config_dir then true else fs.dirs p,
              dperm := fun p => if p = config_dir then some 0o755 else fs.dperm p }
    { fs1 with
        files := fun p =>
          if p = filename then some (renderConfig config_args known_config) else fs1.files p,
        fperm := fun p => if p = filename then some 0o660 else fs1.fperm p }

/-- A string-valued config mapping viewed as renderer input (all values
probed from config files are strings). -/
def liftDict (d : Dict) : String → Option CVal :=
  fun k => (d k).map CVal.vstr

/-- `generate_config_files` (lines 139-158), parameterised by the config
directory, the two schemas, the two probed mappings, and — modelled from
the spec, since `metronoteslib.lib.util` is not under `src/` — the
`util.hexlify`/`util.dhash` functions and the 16 `os.urandom` bytes used
to synthesize an `rpc-password` credential at lines 151-152. -/
def generate_config_files (fs : FS) (cwd configdir : String)
    (serverArgs clientArgs : List ArgSpec)
    (bitcoincore_config old_config : Dict)
    (hexlify : List Nat → String) (dhash : List Nat → List Nat)
    (urandom16 : List Nat) : FS :=
  let server_configfile := pjoin configdir "server.conf"
  if fs.pathExists server_configfile then fs
  else
    let known0 := get_server_known_config bitcoincore_config old_config
    let server_known_config :=
      if known0 "rpc-password" = none
      then known0.insert "rpc-password" (hexlify (dhash urandom16))
      else known0
    let fs1 := generate_config_file fs cwd server_configfile serverArgs
      (liftDict server_known_config) false
    let client_configfile := pjoin configdir "client.conf"
    if fs1.pathExists client_configfile then fs1
    else generate_config_file fs1 cwd client_configfile clientArgs
      (liftDict (server_to_client_config server_known_config)) false

/-! ### ArchiveExtractor: `safe_extract` (lines 260-279) -/

/-- `is_within_directory` (lines 260-267): the `os.path.commonprefix` of
the absolute directory and the absolute target equals the absolute
directory.  Note the comparison is character-wise, not component-wise. -/
def is_within_directory (cwd directory target : String) : Bool :=
  let abs_directory := abspath cwd directory
  let abs_target := abspath cwd target
  commonprefixStr abs_directory abs_target == abs_directory

/-- The pre-pass loop of `safe_extract` at lines 271-274: raise on the
first member whose joined target fails `is_within_directory`. -/
def checkMembers (cwd path : String) : List String → Except String Unit
  | [] => Except.ok ()
  | m :: rest =>
    if ¬ is_within_directory cwd path (pjoin path m)
    then Except.error "Attempted Path Traversal in Tar File"
    else checkMembers cwd path rest

/-- `safe_extract` (lines 269-276): run the pre-pass over all member names;
only if it passes, `tar.extractall(path, ...)` runs and writes every member
at the join of `path` and its name.  A successful result carries the list
of written target paths; an error result carries the exception message and
no writes (the pre-pass raised before any extraction). -/
def safe_extract (cwd path : String) (members : List String) : Except String (List String) :=
  match checkMembers cwd path members with
  | Except.error e => Except.error e
  | Except.ok _ => Except.ok (members.map (fun m => pjoin path m))

/-- The claim's notion of a member name escaping the destination root:
the absolute target is neither the absolute root itself nor inside it
(path-component-wise). -/
def resolvesOutsideRoot (cwd path name : String) : Bool :=
  let root := abspath cwd path
  let tgt := abspath cwd (pjoin path name)
  tgt != root && !(strStartsWith tgt (root ++ "/"))

/-! ### BootstrapOrchestrator: `bootstrap` (lines 222-315) -/

/-- An observable filesystem/network side effect of `bootstrap`. -/
inductive Effect where
  | mkdir : String → Nat → Effect
  | download : String → String → Effect
  | extractTo : String → List String → Effect
  | move : String → String → Effect
  | chmod : String → Nat → Effect
  | remove : String → Effect
deriving DecidableEq

/-- How a `bootstrap` run ends: a normal return or a raised exception. -/
inductive BootResult where
  | ret : BootResult
  | raised : String → BootResult
deriving DecidableEq

/-- The environment a `bootstrap` run observes: the per-platform data
directory and app name (from `appdirs`/`config`, not under `src/`),
whether the data directory and the mainnet database already exist, the
answer `input()` would return, the working directory, and the member
names of the two downloaded archives. -/
structure BootstrapEnv where
  dataDir : String
  appName : String
  dataDirExists : Bool
  databaseExists : Bool
  answer : String
  cwd : String
  mainMembers : List String
  testMembers : List String

/-- The mainnet bootstrap URL (line 225). -/
def bootstrap_url : String :=
  "https://s3.amazonaws.com/metronotes-bootstrap/metronotesd-db.latest.tar.gz"

/-- The testnet bootstrap URL (line 226). -/
def bootstrap_url_testnet : String :=
  "https://s3.amazonaws.com/metronotes-bootstrap/metronotesd-testnet-db.latest.tar.gz"

/-- `bootstrap` (lines 222-315) as a trace of side effects plus an exit
status.  In source order: create the data directory if missing (lines
232-233); return if the database exists and `overwrite` is false (lines
235-236); if `ask_confirmation`, return when the lowered answer is not
`"y"` (lines 238-241); then download, safe-extract, move and chmod each
of the two network variants, and finally remove the temporary artifacts
(lines 256-315).  Downloads are modelled as succeeding; stdout/stderr
progress output is not an effect. -/
def bootstrap (env : BootstrapEnv) (overwrite ask_confirmation : Bool) :
    List Effect × BootResult :=
  let database := pjoin env.dataDir (env.appName ++ ".db")
  let database_testnet := pjoin env.dataDir (env.appName ++ ".testnet.db")
  let eff0 : List Effect :=
    if env.dataDirExists then [] else [Effect.mkdir env.dataDir 0o755]
  if overwrite = false ∧ env.databaseExists = true then (eff0, BootResult.ret)
  else if ask_confirmation = true ∧ lowerStr env.answer ≠ "y" then (eff0, BootResult.ret)
  else
    let eff1 := eff0 ++ [Effect.download bootstrap_url "metronotesd-db.latest.tar.gz"]
    match safe_extract env.cwd "." env.mainMembers with
    | Except.error e => (eff1, BootResult.raised e)
    | Except.ok writes1 =>
      let eff2 := eff1 ++
        [Effect.extractTo "." writes1,
         Effect.move "metronotesd.9.db" database,
         Effect.chmod database 0o660,
         Effect.download bootstrap_url_testnet "metronotesd-testnet-db.latest.tar.gz"]
      match safe_extract env.cwd "." env.testMembers with
      | Except.error e => (eff2, BootResult.raised e)
      | Except.ok writes2 =>
        (eff2 ++
          [Effect.extractTo "." writes2,
           Effect.move "metronotesd.9.testnet.db" database_testnet,
           Effect.chmod database_testnet 0o660,
           Effect.remove "metronotesd-db.latest.tar.gz",
           Effect.remove "metronotesd-testnet-db.latest.tar.gz",
           Effect.remove "checksums.txt"], BootResult.ret)

/-! ### Helper lemmas -/

/-- A key that the table never targets is untouched by `translateKeys`. -/
theorem translateKeys_notMem (src : Dict) (table : List (String × String)) (init : Dict)
    (k : String) (hk : k ∉ table.map Prod.snd) :
    translateKeys src table init k = init k := by
  induction table generalizing init with
  | nil => rfl
  | cons p rest ih =>
    simp only [List.map_cons, List.mem_cons, not_or] at hk
    show translateKeys src rest
      (match src p.1 with
       | some v => Dict.insert init p.2 v
       | none => init) k = init k
    rw [ih _ hk.2]
    cases h : src p.1 with
    | none => rfl
    | some v => simp [Dict.insert, hk.1]

/-- When the table's target keys are distinct, the looked-up value of a
translated key is the source value of the matching source key. -/
theorem translateKeys_mem (src : Dict) (table : List (String × String)) (init : Dict)
    (p : String × String) (hn : (table.map Prod.snd).Nodup) (hp : p ∈ table) :
    translateKeys src table init p.2 =
      match src p.1 with
      | some v => some v
      | none => init p.2 := by
  induction table generalizing init with
  | nil => cases hp
  | cons q rest ih =>
    simp only [List.map_cons, List.nodup_cons] at hn
    rcases List.mem_cons.mp hp with h | h
    · subst h
      show translateKeys src rest
        (match src p.1 with
         | some v => Dict.insert init p.2 v
         | none => init) p.2 = _
      have hnot : p.2 ∉ rest.map Prod.snd := hn.1
      rw [translateKeys_notMem src rest _ p.2 hnot]
      cases hsv : src p.1 with
      | none => rfl
      | some v => simp [Dict.insert]
    · have hne : q.2 ≠ p.2 := by
        intro he
        exact hn.1 (he ▸ List.mem_map_of_mem Prod.snd h)
      show translateKeys src rest
        (match src q.1 with
         | some v => Dict.insert init q.2 v
         | none => init) p.2 = _
      rw [ih _ hn.2 h]
      have hne2 : p.2 ≠ q.2 := fun he => hne he.symm
      cases hsv : src q.1 with
      | none => rfl
      | some v => cases hsp : src p.1 <;> simp [Dict.insert, hne2]

/-- Joining two different equal-length relative names onto the same
directory yields different paths. -/
theorem pjoin_client_ne_server (d : String) :
    pjoin d "client.conf" ≠ pjoin d "server.conf" := by
  have hc : posixIsAbs "client.conf" = false := by decide
  have hs : posixIsAbs "server.conf" = false := by decide
  intro h
  simp only [pjoin, hc, hs, Bool.false_eq_true, if_false] at h
  by_cases he : d = "" ∨ strEndsWith d "/"
  · rw [if_pos he, if_pos he] at h
    have := congrArg String.data h
    simp only [String.data_append] at this
    have := List.append_cancel_left this
    exact absurd (congrArg String.mk this) (by decide)
  · rw [if_neg he, if_neg he] at h
    have := congrArg String.data h
    simp only [String.data_append, List.append_assoc] at this
    have := List.append_cancel_left (List.append_cancel_left this)
    exact absurd (congrArg String.mk this) (by decide)

/-- If some member fails the containment check, the pre-pass raises. -/
theorem checkMembers_error (cwd path : String) (members : List String)
    (h : ∃ m ∈ members, is_within_directory cwd path (pjoin path m) = false) :
    checkMembers cwd path members = Except.error "Attempted Path Traversal in Tar File" := by
  induction members with
  | nil => simp at h
  | cons a rest ih =>
    by_cases ha : is_within_directory cwd path (pjoin path a) = false
    · simp [checkMembers, ha]
    · have ha2 : is_within_directory cwd path (pjoin path a) = true := by
        cases hb : is_within_directory cwd path (pjoin path a)
        · exact absurd hb ha
        · rfl
      rcases h with ⟨m, hm, hbad⟩
      rcases List.mem_cons.mp hm with rfl | hm2
      · exact absurd hbad ha
      · simp [checkMembers, ha2]
        exact ih ⟨m, hm2, hbad⟩

/-- Membership in a list puts the rendered block of an element inside the
concatenation of all blocks. -/
theorem foldr_append_of_mem {α : Type} (f : α → List String) (l : List α) (a : α)
    (ha : a ∈ l) :
    ∃ pre post, l.foldr (fun x acc => f x ++ acc) [] = pre ++ f a ++ post := by
  induction l with
  | nil => cases ha
  | cons b rest ih =>
    rcases List.mem_cons.mp ha with rfl | h
    · exact ⟨[], rest.foldr (fun x acc => f x ++ acc) [], by simp⟩
    · rcases ih h with ⟨pre, post, hp⟩
      exact ⟨f b ++ pre, post, by simp [hp]⟩

/-! ### Claim C1 -/

/-- C1, counterexample: with destination root `/a`, the member name
`../ab/x` resolves to `/ab/x`, which lies outside the root — yet
`safe_extract` does not raise and extracts it, because the character-wise
`os.path.commonprefix` of `/a` and `/ab/x` is `/a` itself.  So extraction
is not rejected whenever a member resolves outside the root, refuting the
claim as stated. -/
theorem C1_counterexample :
    resolvesOutsideRoot "/" "/a" "../ab/x" = true ∧
    safe_extract "/" "/a" ["../ab/x"] = Except.ok ["/a/../ab/x"] := by
  constructor
  · decide
  · rfl

/-- C1, amended: if any member's target path fails the code's
`is_within_directory` test — the absolute destination root is not a
character-wise common-prefix match of the absolute target, which covers
parent-directory traversal such as `../../etc/passwd` and absolute paths
outside the root, but not sibling paths sharing the root as a string
prefix — then `safe_extract` raises the path-traversal exception, and
since the check is a pre-pass over all members, the error result carries
no writes: no member is extracted. -/
theorem C1_rejects_on_failed_check (cwd path : String) (members : List String)
    (h : ∃ m ∈ members, is_within_directory cwd path (pjoin path m) = false) :
    safe_extract cwd path members = Except.error "Attempted Path Traversal in Tar File" := by
  unfold safe_extract
  rw [checkMembers_error cwd path members h]

/-- C1, witness: an archive member named `../../etc/passwd` under root
`/home/user/data` is rejected with the path-traversal exception. -/
theorem C1_witness :
    safe_extract "/home/user" "/home/user/data" ["../../etc/passwd"] =
      Except.error "Attempted Path Traversal in Tar File" :=
  C1_rejects_on_failed_check "/home/user" "/home/user/data" ["../../etc/passwd"]
    ⟨"../../etc/passwd", by decide, by decide⟩

/-! ### Claim C2 -/

/-- C2: in `get_server_known_config`, a key present only in the bitcoin
(foreign) config resolves to the foreign value, and a key present in both
the foreign and the legacy config resolves to the legacy value. -/
theorem C2_merge_precedence (bitcoincore_config old_config : Dict) :
    (∀ k v, bitcoincore_config k = some v → old_config k = none →
      get_server_known_config bitcoincore_config old_config k = some v) ∧
    (∀ k v w, bitcoincore_config k = some v → old_config k = some w →
      get_server_known_config bitcoincore_config old_config k = some w) := by
  constructor
  · intro k v hbc hold
    simp [get_server_known_config, Dict.update, hbc, hold]
  · intro k v w hbc hold
    simp [get_server_known_config, Dict.update, hold]

/-- A foreign (bitcoin-derived) config with two keys, for the C2 witness. -/
def bcExample : Dict :=
  Dict.insert (Dict.insert Dict.empty "backend-port" "8332") "backend-user" "alice"

/-- A legacy config overriding one key, for the C2 witness. -/
def oldExample : Dict :=
  Dict.insert Dict.empty "backend-port" "8333"

/-- C2, witness: `backend-user` (foreign only) resolves to `alice`,
`backend-port` (present in both) resolves to the legacy `8333`. -/
theorem C2_witness :
    get_server_known_config bcExample oldExample "backend-user" = some "alice" ∧
    get_server_known_config bcExample oldExample "backend-port" = some "8333" :=
  ⟨(C2_merge_precedence bcExample oldExample).1 "backend-user" "alice"
      (by decide) (by decide),
   (C2_merge_precedence bcExample oldExample).2 "backend-port" "8332" "8333"
      (by decide) (by decide)⟩

/-! ### Claim C9 -/

/-- The server config of the spec's example: backend-connect and
rpc-password. -/
def scExample : Dict :=
  Dict.insert (Dict.insert Dict.empty "backend-connect" "10.0.0.5") "rpc-password" "secret"

/-- C9: `server_to_client_config` returns exactly the translated subset —
every source key with a translation entry is renamed and keeps its value,
keys without an entry are dropped — and on the example
`(backend-connect, rpc-password)` config it yields exactly
`wallet-connect` and `metronotes-rpc-password`. -/
theorem C9_client_translation (sc : Dict) :
    (∀ p ∈ serverToClientKeys, server_to_client_config sc p.2 = sc p.1) ∧
    (∀ k, k ∉ serverToClientKeys.map Prod.snd → server_to_client_config sc k = none) ∧
    (server_to_client_config scExample "wallet-connect" = some "10.0.0.5" ∧
     server_to_client_config scExample "metronotes-rpc-password" = some "secret" ∧
     ∀ k, k ≠ "wallet-connect" → k ≠ "metronotes-rpc-password" →
       server_to_client_config scExample k = none) := by
  refine ⟨?_, ?_, ?_, ?_, ?_⟩
  · intro p hp
    have h := translateKeys_mem sc serverToClientKeys Dict.empty p (by decide) hp
    show translateKeys sc serverToClientKeys Dict.empty p.2 = sc p.1
    rw [h]
    cases hs : sc p.1 <;> rfl
  · intro k hk
    exact translateKeys_notMem sc serverToClientKeys Dict.empty k hk
  · rfl
  · rfl
  · intro k h1 h2
    have hfun : server_to_client_config scExample k =
        Dict.insert (Dict.insert Dict.empty "wallet-connect" "10.0.0.5")
          "metronotes-rpc-password" "secret" k := rfl
    rw [hfun]
    simp [Dict.insert, Dict.empty, h1, h2]

/-- C9, witness: the general translation facts instantiated at the example
config and at the `backend-connect` table entry. -/
theorem C9_witness :
    server_to_client_config scExample "wallet-connect" = scExample "backend-connect" ∧
    server_to_client_config scExample "unrelated-key" = none :=
  ⟨(C9_client_translation scExample).1 ("backend-connect", "wallet-connect") (by decide),
   (C9_client_translation scExample).2.1 "unrelated-key" (by decide)⟩

/-! ### Claim C6 -/

/-- A character list containing an occurrence of `c` contains `c`. -/
theorem contains_append_cons (xs ys : List Char) (c : Char) :
    (xs ++ c :: ys).contains c = true := by
  induction xs with
  | nil => simp
  | cons a as ih => simp [ih]

/-- `breakAtChar` splits exactly at the first occurrence of `c`. -/
theorem breakAtChar_append (c : Char) (xs ys : List Char)
    (h : xs.contains c = false) :
    breakAtChar c (xs ++ c :: ys) = some (xs, ys) := by
  induction xs with
  | nil => simp [breakAtChar]
  | cons a as ih =>
    simp only [List.contains_cons, Bool.or_eq_false_iff, beq_eq_false_iff_ne, ne_eq] at h
    have hac : a ≠ c := fun he => h.1 he.symm
    have hrec := ih h.2
    simp [breakAtChar, if_neg hac, hrec]

/-- C6, counterexample: the line `rpcpassword=p#ss` is not blank, is not a
comment line, and contains an `=`, yet `extract_bitcoincore_config` drops
it (the code skips every line containing `#` anywhere, even inside a
value), so the claimed `backend-password` entry is absent. -/
theorem C6_counterexample :
    strStartsWith "rpcpassword=p#ss" "#" = false ∧
    "rpcpassword=p#ss" ≠ "" ∧
    ("rpcpassword=p#ss" : String).data.contains '=' = true ∧
    extract_bitcoincore_config (some ["rpcpassword=p#ss"]) "backend-password" = none := by
  refine ⟨by decide, by decide, by decide, rfl⟩

/-- C6, amended: `extract_bitcoincore_config` parses line-oriented
`key=value` pairs but skips any line containing `#` anywhere (hence all
comment lines) and any line without an `=` (hence blank lines); a missing
file yields the empty mapping; only the four connectivity keys survive,
renamed through the fixed table; and a parsed line's surviving value is
the whitespace-stripped file value. -/
theorem C6_probe_behavior :
    (∀ k, extract_bitcoincore_config none k = none) ∧
    (∀ lines k, k ∉ btcConfigKeys.map Prod.snd →
      extract_bitcoincore_config (some lines) k = none) ∧
    (∀ pre line post, line.data.contains '#' = true ∨ line.data.contains '=' = false →
      extract_bitcoincore_config (some (pre ++ line :: post)) =
        extract_bitcoincore_config (some (pre ++ post))) ∧
    (∀ p ∈ btcConfigKeys, ∀ v : String, p.1.data.contains '=' = false →
      (p.1 ++ "=" ++ v).data.contains '#' = false →
      extract_bitcoincore_config (some [p.1 ++ "=" ++ v]) p.2 = some (strip v)) := by
  refine ⟨fun k => rfl, ?_, ?_, ?_⟩
  · intro lines k hk
    exact translateKeys_notMem _ btcConfigKeys Dict.empty k hk
  · intro pre line post h
    have hstep : parseBtcLine (pre.foldl parseBtcLine Dict.empty) line =
        pre.foldl parseBtcLine Dict.empty := by
      unfold parseBtcLine
      rcases h with h | h
      · rw [if_pos (Or.inl h)]
      · rw [if_pos (Or.inr (fun hc => Bool.false_ne_true (h ▸ hc)))]
    show translateKeys ((pre ++ line :: post).foldl parseBtcLine Dict.empty) _ _ =
      translateKeys ((pre ++ post).foldl parseBtcLine Dict.empty) _ _
    rw [List.foldl_append, List.foldl_append, List.foldl_cons, hstep]
  · intro p hp v hkeq hhash
    have hdata : (p.1 ++ "=" ++ v).data = p.1.data ++ '=' :: v.data := by
      simp [String.data_append]
    have heq : (p.1 ++ "=" ++ v).data.contains '=' = true := by
      rw [hdata]; exact contains_append_cons _ _ _
    have hbreak : breakAtChar '=' (p.1 ++ "=" ++ v).data = some (p.1.data, v.data) := by
      rw [hdata]; exact breakAtChar_append '=' _ _ hkeq
    have hcond : ¬((p.1 ++ "=" ++ v).data.contains '#' = true ∨
        ¬ (p.1 ++ "=" ++ v).data.contains '=' = true) := by
      rw [hhash, heq]; simp
    have hconf : ([p.1 ++ "=" ++ v] : List String).foldl parseBtcLine Dict.empty =
        Dict.insert Dict.empty (String.mk (stripChars p.1.data)) (strip v) := by
      simp only [List.foldl_cons, List.foldl_nil]
      unfold parseBtcLine
      rw [if_neg hcond, hbreak]
      rfl
    show translateKeys _ btcConfigKeys Dict.empty p.2 = some (strip v)
    rw [hconf, translateKeys_mem _ btcConfigKeys Dict.empty p (by decide) hp]
    fin_cases hp <;> rfl

/-- C6, witness: a missing file yields an empty mapping; a plain
`rpcuser=alice` line survives as `backend-user = alice`; a commented line
is skipped. -/
theorem C6_witness :
    extract_bitcoincore_config none "backend-user" = none ∧
    extract_bitcoincore_config (some ["rpcuser" ++ "=" ++ "alice"]) "backend-user" =
      some (strip "alice") ∧
    extract_bitcoincore_config (some (["# a comment"] ++ ["rpcuser" ++ "=" ++ "alice"])) =
      extract_bitcoincore_config (some ([] ++ ["rpcuser" ++ "=" ++ "alice"])) :=
  ⟨C6_probe_behavior.1 "backend-user",
   C6_probe_behavior.2.2.2 ("rpcuser", "backend-user") (by decide) "alice"
     (by decide) (by decide),
   C6_probe_behavior.2.2.1 [] "# a comment" ["rpcuser" ++ "=" ++ "alice"]
     (Or.inl (by decide))⟩

/-! ### Renderer helper lemmas -/

/-- With `overwrite=False`, an existing target makes the renderer a no-op. -/
theorem gcf_noop (fs : FS) (cwd filename : String) (args : List ArgSpec)
    (known : String → Option CVal) (h : fs.pathExists filename = true) :
    generate_config_file fs cwd filename args known false = fs := by
  simp [generate_config_file, h]

/-- After rendering onto a missing target, the target exists. -/
theorem gcf_writes_pathExists (fs : FS) (cwd filename : String) (args : List ArgSpec)
    (known : String → Option CVal) (h : fs.pathExists filename = false) :
    (generate_config_file fs cwd filename args known false).pathExists filename = true := by
  simp only [FS.pathExists, Bool.or_eq_false_iff] at h
  simp [generate_config_file, FS.pathExists, h.1, h.2]

/-- Rendering onto a missing target writes exactly the rendered content. -/
theorem gcf_writes_content (fs : FS) (cwd filename : String) (args : List ArgSpec)
    (known : String → Option CVal) (h : fs.pathExists filename = false) :
    (generate_config_file fs cwd filename args known false).files filename =
      some (renderConfig args known) := by
  simp only [FS.pathExists, Bool.or_eq_false_iff] at h
  simp [generate_config_file, FS.pathExists, h.1, h.2]

/-- The renderer never touches the content of any other path. -/
theorem gcf_files_other (fs : FS) (cwd filename : String) (args : List ArgSpec)
    (known : String → Option CVal) (overwrite : Bool) (p : String)
    (hne : p ≠ filename) :
    (generate_config_file fs cwd filename args known overwrite).files p = fs.files p := by
  unfold generate_config_file
  split
  · rfl
  · simp only [hne, if_false]
    split <;> rfl

/-! ### Claim C4 -/

/-- C4: with `overwrite=False`, `generate_config_file` on a path with an
existing file is a no-op — the state, hence the pre-existing content, is
unchanged regardless of schema or known values — and a second render with
`overwrite=False` after any first render leaves the first result
untouched. -/
theorem C4_render_idempotent :
    (∀ (fs : FS) (cwd filename : String) (args : List ArgSpec)
        (known : String → Option CVal) (c : String),
      fs.files filename = some c →
      generate_config_file fs cwd filename args known false = fs) ∧
    (∀ (fs : FS) (cwd cwd2 filename : String) (args args2 : List ArgSpec)
        (known known2 : String → Option CVal),
      generate_config_file (generate_config_file fs cwd filename args known false)
        cwd2 filename args2 known2 false =
      generate_config_file fs cwd filename args known false) := by
  constructor
  · intro fs cwd filename args known c h
    exact gcf_noop fs cwd filename args known (by simp [FS.pathExists, h])
  · intro fs cwd cwd2 filename args args2 known known2
    by_cases hex : fs.pathExists filename = true
    · rw [gcf_noop fs cwd filename args known hex,
        gcf_noop fs cwd2 filename args2 known2 hex]
    · have hex2 : fs.pathExists filename = false := by
        cases hb : fs.pathExists filename
        · rfl
        · exact absurd hb hex
      exact gcf_noop _ cwd2 filename args2 known2
        (gcf_writes_pathExists fs cwd filename args known hex2)

/-- A filesystem holding one file, for the C4 witness. -/
def fsOneFile : FS :=
  ⟨fun p => if p = "/cfg/server.conf" then some "user edits" else none,
   fun _ => none, fun _ => false, fun _ => none⟩

/-- C4, witness: rendering over the existing `/cfg/server.conf` with
`overwrite=False` leaves the state unchanged, and a repeated render is
absorbed. -/
theorem C4_witness :
    generate_config_file fsOneFile "/" "/cfg/server.conf" [] (fun _ => none) false =
      fsOneFile ∧
    generate_config_file
      (generate_config_file FS.emptyFS "/" "/cfg/client.conf" [] (fun _ => none) false)
      "/" "/cfg/client.conf" [] (fun _ => none) false =
    generate_config_file FS.emptyFS "/" "/cfg/client.conf" [] (fun _ => none) false :=
  ⟨C4_render_idempotent.1 fsOneFile "/" "/cfg/server.conf" [] (fun _ => none)
      "user edits" (by decide),
   C4_render_idempotent.2 FS.emptyFS "/" "/" "/cfg/client.conf" [] []
      (fun _ => none) (fun _ => none)⟩

/-! ### Claim C7 -/

/-- C7, counterexample: rendering a fresh config file creates the missing
parent directory with mode `0o755`, whose world bits (read and execute)
are set — so the directory mode does not restrict access to owner and
group, refuting the first half of the claim. -/
theorem C7_counterexample :
    (generate_config_file FS.emptyFS "/" "/etc/app/server.conf" [] (fun _ => none)
        false).dperm "/etc/app" = some 0o755 ∧
    (0o755 : Nat) &&& 0o007 ≠ 0 := by
  exact ⟨rfl, by decide⟩

/-- C7, amended: when the target and its parent directory are both
missing, the parent directory is created with mode `0o755` (owner rwx,
group and world read+execute — not restricted to owner/group), and after
the write the file's permissions are set to `0o660` (owner/group
read-write only, no world access, no execute bits). -/
theorem C7_permission_modes (fs : FS) (cwd filename : String) (args : List ArgSpec)
    (known : String → Option CVal)
    (h1 : fs.pathExists filename = false)
    (h2 : fs.pathExists (dirname (abspath cwd filename)) = false) :
    (generate_config_file fs cwd filename args known false).dperm
        (dirname (abspath cwd filename)) = some 0o755 ∧
    (generate_config_file fs cwd filename args known false).fperm filename = some 0o660 ∧
    (0o660 : Nat) &&& 0o007 = 0 ∧ (0o660 : Nat) &&& 0o111 = 0 := by
  simp only [FS.pathExists, Bool.or_eq_false_iff] at h1 h2
  refine ⟨?_, ?_, by decide, by decide⟩
  · simp [generate_config_file, FS.pathExists, h1.1, h1.2, h2.1, h2.2]
  · simp [generate_config_file, FS.pathExists, h1.1, h1.2]

/-- C7, witness: the amended permission facts at a concrete fresh render. -/
theorem C7_witness :
    (generate_config_file FS.emptyFS "/" "/etc/app2/server.conf" [] (fun _ => none)
        false).dperm (dirname (abspath "/" "/etc/app2/server.conf")) = some 0o755 ∧
    (generate_config_file FS.emptyFS "/" "/etc/app2/server.conf" [] (fun _ => none)
        false).fperm "/etc/app2/server.conf" = some 0o660 ∧
    (0o660 : Nat) &&& 0o007 = 0 ∧ (0o660 : Nat) &&& 0o111 = 0 :=
  C7_permission_modes FS.emptyFS "/" "/etc/app2/server.conf" [] (fun _ => none)
    (by decide) (by decide)

/-! ### Claim C8 -/

/-- C8: for a schema entry with neither a known value nor a default, the
rendered block is its help comment followed by the commented-out key with
an empty value; an entry with a resolved value renders the active
`key = value` line; and each entry's block appears inside the rendered
file's lines. -/
theorem C8_commented_entries (args : List ArgSpec) (known : String → Option CVal)
    (a : ArgSpec) (ha : a ∈ args) :
    (known (argKey a) = none ∧ a.default = none →
      renderArg known a = ["# " ++ a.help, "# " ++ argKey a ++ " = ", ""]) ∧
    (∀ v, resolvedValue known a = some v →
      renderArg known a = ["# " ++ a.help, argKey a ++ " = " ++ renderVal v, ""]) ∧
    (∃ pre post, renderLines args known = pre ++ renderArg known a ++ post) := by
  refine ⟨?_, ?_, ?_⟩
  · rintro ⟨h1, h2⟩
    simp [renderArg, resolvedValue, h1, h2]
  · intro v hv
    simp [renderArg, hv]
  · rcases foldr_append_of_mem (renderArg known) args a ha with ⟨pre, post, hp⟩
    exact ⟨["[Default]", ""] ++ pre, post, by simp [renderLines, hp]⟩

/-- A schema entry with no default, for the C8 witness. -/
def argNoVal : ArgSpec := ⟨["--foo"], "foo help", none⟩

/-- A schema entry with a declared default, for the C8 witness. -/
def argWithDefault : ArgSpec := ⟨["--bar"], "bar help", some (CVal.vstr "7")⟩

/-- C8, witness: with an empty known config, the defaultless entry renders
commented out with an empty value, the defaulted entry renders active,
and both blocks occur in the rendered lines. -/
theorem C8_witness :
    renderArg (fun _ => none) argNoVal = ["# foo help", "# foo = ", ""] ∧
    renderArg (fun _ => none) argWithDefault = ["# bar help", "bar = 7", ""] ∧
    (∃ pre post, renderLines [argNoVal, argWithDefault] (fun _ => none) =
      pre ++ renderArg (fun _ => none) argNoVal ++ post) :=
  ⟨(C8_commented_entries [argNoVal, argWithDefault] (fun _ => none) argNoVal
      (by decide)).1 ⟨rfl, rfl⟩,
   (C8_commented_entries [argNoVal, argWithDefault] (fun _ => none) argWithDefault
      (by decide)).2.1 (CVal.vstr "7") rfl,
   (C8_commented_entries [argNoVal, argWithDefault] (fun _ => none) argNoVal
      (by decide)).2.2⟩

/-! ### Claim C3 -/

/-- C3: when no server config file exists and the merged known config has
no `rpc-password`, `generate_config_files` writes the server file with the
`rpc-password` credential synthesized as `hexlify (dhash urandom16)` — the
hex encoding of the message digest of the random bytes; and when a server
config file already exists at the target path, the whole run is skipped and
the state is unchanged. -/
theorem C3_credential_synthesis (fs : FS) (cwd configdir : String)
    (serverArgs clientArgs : List ArgSpec) (bc old : Dict)
    (hexlify : List Nat → String) (dhash : List Nat → List Nat) (rnd : List Nat) :
    (fs.pathExists (pjoin configdir "server.conf") = false →
      get_server_known_config bc old "rpc-password" = none →
      (generate_config_files fs cwd configdir serverArgs clientArgs bc old
          hexlify dhash rnd).files (pjoin configdir "server.conf") =
        some (renderConfig serverArgs (liftDict
          ((get_server_known_config bc old).insert "rpc-password" (hexlify (dhash rnd)))))) ∧
    (fs.pathExists (pjoin configdir "server.conf") = true →
      generate_config_files fs cwd configdir serverArgs clientArgs bc old
        hexlify dhash rnd = fs) := by
  constructor
  · intro h hnp
    have hbody : generate_config_files fs cwd configdir serverArgs clientArgs bc old
        hexlify dhash rnd =
      (let fs1 := generate_config_file fs cwd (pjoin configdir "server.conf") serverArgs
        (liftDict ((get_server_known_config bc old).insert "rpc-password"
          (hexlify (dhash rnd)))) false
       if fs1.pathExists (pjoin configdir "client.conf") then fs1
       else generate_config_file fs1 cwd (pjoin configdir "client.conf") clientArgs
        (liftDict (server_to_client_config ((get_server_known_config bc old).insert
          "rpc-password" (hexlify (dhash rnd))))) false) := by
      simp [generate_config_files, h, hnp]
    rw [hbody]
    have hsc := gcf_writes_content fs cwd (pjoin configdir "server.conf") serverArgs
      (liftDict ((get_server_known_config bc old).insert "rpc-password"
        (hexlify (dhash rnd)))) h
    set fs1 := generate_config_file fs cwd (pjoin configdir "server.conf") serverArgs
      (liftDict ((get_server_known_config bc old).insert "rpc-password"
        (hexlify (dhash rnd)))) false with hfs1
    by_cases hcc : fs1.pathExists (pjoin configdir "client.conf") = true
    · simp only [hcc, if_true]
      exact hsc
    · have hcc2 : fs1.pathExists (pjoin configdir "client.conf") = false := by
        cases hb : fs1.pathExists (pjoin configdir "client.conf")
        · rfl
        · exact absurd hb hcc
      simp only [hcc2, Bool.false_eq_true, if_false]
      rw [gcf_files_other fs1 cwd (pjoin configdir "client.conf") clientArgs _ false
        (pjoin configdir "server.conf") (Ne.symm (pjoin_client_ne_server configdir))]
      exact hsc
  · intro h
    simp [generate_config_files, h]

/-- C3, witness: on an empty filesystem with empty probed configs, the
written server file carries the synthesized credential; a dummy digest and
hex encoder stand in for the abstract library functions. -/
theorem C3_witness :
    (generate_config_files FS.emptyFS "/" "/cfg" [] [] Dict.empty Dict.empty
        (fun _ => "ab12") (fun b => b) []).files (pjoin "/cfg" "server.conf") =
      some (renderConfig [] (liftDict
        ((get_server_known_config Dict.empty Dict.empty).insert "rpc-password"
          ((fun _ => "ab12") ((fun (b : List Nat) => b) []))))) :=
  (C3_credential_synthesis FS.emptyFS "/" "/cfg" [] [] Dict.empty Dict.empty
    (fun _ => "ab12") (fun b => b) []).1 (by decide) rfl

/-! ### Claim C10 -/

/-- C10: when the server config file already exists, `generate_config_files`
returns with the filesystem unchanged — in particular the client config
file is not generated, even if it is absent. -/
theorem C10_no_client_generation (fs : FS) (cwd configdir : String)
    (serverArgs clientArgs : List ArgSpec) (bc old : Dict)
    (hexlify : List Nat → String) (dhash : List Nat → List Nat) (rnd : List Nat)
    (h : fs.pathExists (pjoin configdir "server.conf") = true) :
    generate_config_files fs cwd configdir serverArgs clientArgs bc old
      hexlify dhash rnd = fs ∧
    (generate_config_files fs cwd configdir serverArgs clientArgs bc old
      hexlify dhash rnd).files (pjoin configdir "client.conf") =
        fs.files (pjoin configdir "client.conf") := by
  have h1 : generate_config_files fs cwd configdir serverArgs clientArgs bc old
      hexlify dhash rnd = fs := by
    simp [generate_config_files, h]
  exact ⟨h1, by rw [h1]⟩

/-- A filesystem where `server.conf` exists and `client.conf` does not,
for the C10 witness. -/
def fsServerOnly : FS :=
  ⟨fun p => if p = "/cfg/server.conf" then some "existing" else none,
   fun _ => none, fun _ => false, fun _ => none⟩

/-- C10, witness: with `server.conf` present and `client.conf` absent, the
run changes nothing and creates no client config. -/
theorem C10_witness :
    generate_config_files fsServerOnly "/" "/cfg" [] [] Dict.empty Dict.empty
      (fun _ => "ab12") (fun b => b) [] = fsServerOnly ∧
    (generate_config_files fsServerOnly "/" "/cfg" [] [] Dict.empty Dict.empty
      (fun _ => "ab12") (fun b => b) []).files (pjoin "/cfg" "client.conf") =
        fsServerOnly.files (pjoin "/cfg" "client.conf") :=
  C10_no_client_generation fsServerOnly "/" "/cfg" [] [] Dict.empty Dict.empty
    (fun _ => "ab12") (fun b => b) [] (by decide)

/-! ### Claim C5 -/

/-- A bootstrap environment in which the data directory is missing and the
user answers `n`, for the C5 counterexample. -/
def envDecline : BootstrapEnv :=
  ⟨"/home/user/.local/share/Metronotes", "metronotesd", false, false, "n",
   "/home/user", [], []⟩

/-- C5, counterexample: with `ask_confirmation` and a declining answer,
`bootstrap` returns normally without downloading or extracting — but its
effect trace is not empty: the data directory was already created before
the prompt, so the operation is not free of side effects as claimed. -/
theorem C5_counterexample :
    lowerStr envDecline.answer ≠ "y" ∧
    bootstrap envDecline true true =
      ([Effect.mkdir "/home/user/.local/share/Metronotes" 0o755], BootResult.ret) ∧
    (bootstrap envDecline true true).1 ≠ [] := by
  refine ⟨by decide, by decide, by decide⟩

/-- C5, amended: whenever `ask_confirmation` is set and the lowered answer
is not `y`, `bootstrap` exits as a normal return (not an error) with no
download, extraction, move, chmod or removal effects; the only possible
effect is the creation of the data directory, which happens before the
prompt. -/
theorem C5_decline_aborts (env : BootstrapEnv) (overwrite : Bool)
    (h : lowerStr env.answer ≠ "y") :
    bootstrap env overwrite true =
      ((if env.dataDirExists then [] else [Effect.mkdir env.dataDir 0o755]),
        BootResult.ret) := by
  by_cases h1 : overwrite = false ∧ env.databaseExists = true
  · simp [bootstrap, h1]
  · simp [bootstrap, h1, h]

/-- C5, witness: the amended abort behavior at the concrete declining
environment. -/
theorem C5_witness :
    bootstrap envDecline true true =
      ([Effect.mkdir "/home/user/.local/share/Metronotes" 0o755], BootResult.ret) :=
  (C5_decline_aborts envDecline true (by decide)).trans (by decide)

end Metronotes
